import Mathlib

/-!
Verification of the enterprise file-management backend (app.py):
checksum service, storage path handling, upload pipeline, retention
sweep, audit recorder, role guard and login lockout.

Machine integers are modelled as `Nat` with explicit `% 2 ^ 32` where
32-bit overflow matters (SHA-256).  Database tables are lists of rows;
the fallibility of database commits and of the audit store is modelled
by explicit boolean oracles passed to the functions that perform them.
-/

set_option maxRecDepth 100000

namespace EFMS

/-! ### SHA-256 (the digest computed by `hashlib.sha256` as used in
`FileMetadata.calculate_checksum`) -/

/-- `2 ^ 32`, the modulus for 32-bit words. -/
def M32 : Nat := 4294967296

/-- 32-bit right rotation. -/
def rotr32 (n x : Nat) : Nat := ((x >>> n) ||| (x <<< (32 - n))) % M32

/-- Big sigma-0 of FIPS 180-4. -/
def bsig0 (x : Nat) : Nat := rotr32 2 x ^^^ rotr32 13 x ^^^ rotr32 22 x

/-- Big sigma-1 of FIPS 180-4. -/
def bsig1 (x : Nat) : Nat := rotr32 6 x ^^^ rotr32 11 x ^^^ rotr32 25 x

/-- Small sigma-0 of FIPS 180-4. -/
def ssig0 (x : Nat) : Nat := rotr32 7 x ^^^ rotr32 18 x ^^^ (x >>> 3)

/-- Small sigma-1 of FIPS 180-4. -/
def ssig1 (x : Nat) : Nat := rotr32 17 x ^^^ rotr32 19 x ^^^ (x >>> 10)

/-- The Ch function (32-bit complement written via xor with the all-ones word). -/
def ch (x y z : Nat) : Nat := (x &&& y) ^^^ ((x ^^^ 4294967295) &&& z)

/-- The Maj function. -/
def maj (x y z : Nat) : Nat := (x &&& y) ^^^ (x &&& z) ^^^ (y &&& z)

/-- The 64 SHA-256 round constants. -/
def K : List Nat :=
  [1116352408, 1899447441, 3049323471, 3921009573,
   961987163, 1508970993, 2453635748, 2870763221,
   3624381080, 310598401, 607225278, 1426881987,
   1925078388, 2162078206, 2614888103, 3248222580,
   3835390401, 4022224774, 264347078, 604807628,
   770255983, 1249150122, 1555081692, 1996064986,
   2554220882, 2821834349, 2952996808, 3210313671,
   3336571891, 3584528711, 113926993, 338241895,
   666307205, 773529912, 1294757372, 1396182291,
   1695183700, 1986661051, 2177026350, 2456956037,
   2730485921, 2820302411, 3259730800, 3345764771,
   3516065817, 3600352804, 4094571909, 275423344,
   430227734, 506948616, 659060556, 883997877,
   958139571, 1322822218, 1537002063, 1747873779,
   1955562222, 2024104815, 2227730452, 2361852424,
   2428436474, 2756734187, 3204031479, 3329325298]

/-- The eight SHA-256 working variables. -/
structure Hash8 where
  a : Nat
  b : Nat
  c : Nat
  d : Nat
  e : Nat
  f : Nat
  g : Nat
  h : Nat
deriving DecidableEq, Repr

/-- The SHA-256 initial hash value. -/
def H0 : Hash8 :=
  ⟨1779033703, 3144134277, 1013904242, 2773480762,
   1359893119, 2600822924, 528734635, 1541459225⟩

/-- Chunking worker: `fuel` is an upper bound on the list length, so the
recursion is structural (and hence kernel-reducible). -/
def chunkFuel (n : Nat) : Nat → List α → List (List α)
  | _, [] => []
  | 0, _ :: _ => []
  | fuel + 1, x :: xs => (x :: xs).take n :: chunkFuel n fuel ((x :: xs).drop n)

/-- Split a list into consecutive chunks of `n` elements (the last chunk may
be shorter); returns `[]` when `n = 0`.  This models both the 4096-byte read
loop of `calculate_checksum` and the 64-byte block / 4-byte word grouping of
the hash function itself. -/
def chunk (n : Nat) (l : List α) : List (List α) :=
  if n = 0 then [] else chunkFuel n l.length l

/-- SHA-256 message padding: a `0x80` byte, zeros to 56 mod 64, then the
bit length as 8 big-endian bytes. -/
def padMessage (msg : List Nat) : List Nat :=
  let L := msg.length
  let bitLen := 8 * L
  msg ++ 128 :: List.replicate ((64 - (L + 9) % 64) % 64) 0 ++
    [(bitLen >>> 56) % 256, (bitLen >>> 48) % 256, (bitLen >>> 40) % 256, (bitLen >>> 32) % 256,
     (bitLen >>> 24) % 256, (bitLen >>> 16) % 256, (bitLen >>> 8) % 256, bitLen % 256]

/-- A big-endian 32-bit word from a list of bytes. -/
def word32 (bs : List Nat) : Nat := bs.foldl (fun acc b => acc * 256 + b) 0

/-- Extend the 16-word block schedule by `n` further words. -/
def extendSchedule : Nat → List Nat → List Nat
  | 0, w => w
  | n + 1, w =>
    let m := w.length
    let next := (ssig1 (w.getD (m - 2) 0) + w.getD (m - 7) 0 +
                 ssig0 (w.getD (m - 15) 0) + w.getD (m - 16) 0) % M32
    extendSchedule n (w ++ [next])

/-- One SHA-256 round, consuming a pair of round constant and schedule word. -/
def sha256Round (st : Hash8) (kw : Nat × Nat) : Hash8 :=
  let t1 := (st.h + bsig1 st.e + ch st.e st.f st.g + kw.1 + kw.2) % M32
  let t2 := (bsig0 st.a + maj st.a st.b st.c) % M32
  { a := (t1 + t2) % M32, b := st.a, c := st.b, d := st.c,
    e := (st.d + t1) % M32, f := st.e, g := st.f, h := st.g }

/-- Compress one 64-byte block into the running hash value. -/
def compressBlock (H : Hash8) (block : List Nat) : Hash8 :=
  let ws := extendSchedule 48 ((chunk 4 block).map word32)
  let st := (K.zip ws).foldl sha256Round H
  { a := (H.a + st.a) % M32, b := (H.b + st.b) % M32, c := (H.c + st.c) % M32,
    d := (H.d + st.d) % M32, e := (H.e + st.e) % M32, f := (H.f + st.f) % M32,
    g := (H.g + st.g) % M32, h := (H.h + st.h) % M32 }

/-- SHA-256 of a byte list, as the eight 32-bit hash words. -/
def sha256Words (msg : List Nat) : Hash8 :=
  (chunk 64 (padMessage msg)).foldl compressBlock H0

/-- Lowercase hexadecimal digit for a value below 16. -/
def hexDigit (n : Nat) : Char :=
  if n < 10 then Char.ofNat (48 + n) else Char.ofNat (87 + n)

/-- The eight lowercase hex characters of a 32-bit word, most significant first. -/
def toHex8 (x : Nat) : List Char :=
  [hexDigit ((x >>> 28) % 16), hexDigit ((x >>> 24) % 16), hexDigit ((x >>> 20) % 16),
   hexDigit ((x >>> 16) % 16), hexDigit ((x >>> 12) % 16), hexDigit ((x >>> 8) % 16),
   hexDigit ((x >>> 4) % 16), hexDigit (x % 16)]

/-- The 64-character lowercase hex digest of a byte list (`hexdigest()`). -/
def sha256hex (msg : List Nat) : String :=
  let H := sha256Words msg
  String.mk (toHex8 H.a ++ toHex8 H.b ++ toHex8 H.c ++ toHex8 H.d ++
             toHex8 H.e ++ toHex8 H.f ++ toHex8 H.g ++ toHex8 H.h)

/-- One `sha256_hash.update(byte_block)` call: the hasher state is the
sequence of bytes absorbed so far, and an update appends the block. -/
def sha256_update (acc : List Nat) (block : List Nat) : List Nat := acc ++ block

/-- Embeds `FileMetadata.calculate_checksum`: the stored content is read in
4096-byte chunks, each chunk is fed to the incremental hasher, and the
lowercase hex digest of everything absorbed is returned. -/
def calculate_checksum (content : List Nat) : String :=
  sha256hex ((chunk 4096 content).foldl sha256_update [])


/-! ### Configuration (`app.config`) -/

/-- The upload root, `app.config UPLOAD_FOLDER`. -/
def UPLOAD_FOLDER : String := "enterprise_files"

/-- `app.config RETENTION_POLICY_DAYS` (default: 7 years). -/
def RETENTION_POLICY_DAYS : Nat := 2555

/-- `app.config ALLOWED_EXTENSIONS`. -/
def ALLOWED_EXTENSIONS : List String :=
  ["pdf", "doc", "docx", "xls", "xlsx", "ppt", "pptx", "txt", "rtf", "odt",
   "png", "jpg", "jpeg", "gif", "bmp", "tiff", "svg", "webp",
   "mp4", "avi", "mov", "wmv", "flv", "mkv", "webm",
   "mp3", "wav", "flac", "aac", "ogg", "m4a",
   "zip", "rar", "7z", "tar", "gz", "bz2",
   "csv", "json", "xml", "yaml", "sql",
   "py", "js", "html", "css", "java", "cpp", "c", "php", "rb", "go"]

/-! ### Filename and path utilities.  (The corresponding Python string
methods are re-implemented over the character list of the string by
structural recursion, with their documented semantics at these call
sites.) -/

/-- Lowercasing of a string, Python `.lower()` for the ASCII names
involved here. -/
def lowerStr (s : String) : String := String.mk (s.data.map Char.toLower)

/-- Whether the string contains the character, Python `c in s`. -/
def containsChar (s : String) (c : Char) : Bool := s.data.contains c

/-- The part of the filename after the last dot, Python
`filename.rsplit('.', 1)[1]` (meaningful when the name contains a dot). -/
def extOf (s : String) : String :=
  String.mk ((s.data.reverse.takeWhile (fun c => !(c == '.'))).reverse)

/-- Embeds `allowed_file`: the name contains a dot and its lowercased
extension is in the allowed set. -/
def allowed_file (filename : String) : Bool :=
  containsChar filename '.' && ALLOWED_EXTENSIONS.contains (lowerStr (extOf filename))

/-- Python `s.strip('/')`: remove leading and trailing slashes. -/
def stripSlashes (s : String) : String :=
  String.mk (((s.data.dropWhile (fun c => c == '/')).reverse.dropWhile
    (fun c => c == '/')).reverse)

/-- Whether the final character is a slash. -/
def lastIsSlash (s : String) : Bool := s.data.getLastD ' ' == '/'

/-- Python `os.path.join` for the shapes arising here (the second component
is never absolute because it has been stripped of slashes). -/
def joinPath (a b : String) : String :=
  if a = "" then b
  else if b = "" then (if lastIsSlash a then a else a ++ "/")
  else if lastIsSlash a then a ++ b
  else a ++ "/" ++ b

/-- The directory the upload is placed in:
`os.path.join(app.config['UPLOAD_FOLDER'], folder_path.strip('/'))`. -/
def uploadDir (folder_path : String) : String :=
  joinPath UPLOAD_FOLDER (stripSlashes folder_path)

/-- Splitting on a single-character separator worker; `cur` holds the
current segment reversed. -/
def splitOnCharAux (c : Char) : List Char → List Char → List (List Char)
  | [], cur => [cur.reverse]
  | x :: xs, cur =>
    if x == c then cur.reverse :: splitOnCharAux c xs []
    else splitOnCharAux c xs (x :: cur)

/-- Splitting a string on a single-character separator, Python
`s.split(c)`. -/
def splitOnChar (c : Char) (s : String) : List String :=
  (splitOnCharAux c s.data []).map String.mk

/-- Normalisation check on the raw path relative to the upload root: walking
the segments, `..` pops a directory, `.` and empty segments are ignored;
the result is `true` when the walk ever climbs above its starting point,
i.e. the resolved location escapes the root the walk started from. -/
def escapeDepth : Nat → List String → Bool
  | _, [] => false
  | d, s :: rest =>
    if s = ".." then
      match d with
      | 0 => true
      | d' + 1 => escapeDepth d' rest
    else if s = "." || s = "" then escapeDepth d rest
    else escapeDepth (d + 1) rest

/-- Whether the caller-supplied folder path resolves outside the upload
root once joined below it. -/
def escapesUploadRoot (folder_path : String) : Bool :=
  escapeDepth 0 (splitOnChar '/' (stripSlashes folder_path))

/-! ### Data model (rows of the relevant tables, with the columns the
claims are about; uuid columns are modelled as `Nat`, timestamps as `Nat`
seconds; columns not referenced by any claim are omitted) -/

/-- A `FileMetadata` row. -/
structure FileMetaRow where
  fid : Nat
  organization_id : Nat
  name : String
  original_name : String
  file_path : String
  file_type : String
  size : Nat
  checksum : String
  folder_path : String
  classification : String
  category : String
  retention_until : Option Nat
  legal_hold : Bool
  created_by_id : Nat
deriving DecidableEq, Repr

/-- A `FilePermission` row (the five capability flags and the grantee). -/
structure FilePermissionRow where
  file_id : Nat
  user_id : Nat
  can_read : Bool
  can_write : Bool
  can_delete : Bool
  can_share : Bool
  can_admin : Bool
  granted_by_id : Nat
deriving DecidableEq, Repr

/-- An `AuditLog` row. -/
structure AuditLogRow where
  user_id : Option Nat
  event_type : String
  action : String
  resource_type : Option String
  resource_id : Option Nat
  details : List (String × String)
deriving DecidableEq, Repr

/-- A `User` row (the columns involved in role checks and login lockout). -/
structure UserRow where
  uid : Nat
  role : String
  failed_login_attempts : Nat
  locked_until : Option Nat
  two_factor_enabled : Bool
  last_login : Option Nat
deriving DecidableEq, Repr

/-- The persistent state: the three tables the claims reason about plus the
on-disk artifact store (path and stored bytes). -/
structure DB where
  files : List FileMetaRow
  perms : List FilePermissionRow
  audits : List AuditLogRow
  artifacts : List (String × List Nat)
deriving DecidableEq, Repr

/-! ### Audit recorder (`log_audit_event`) -/

/-- Embeds `log_audit_event`.  `primaryOk` models whether the relational
`db.session.commit()` succeeds and `esOk` whether the best-effort
Elasticsearch indexing succeeds.  Per the source the whole body is wrapped
in try/except blocks whose handlers only write to the application log, so
the function never raises: the second component ("an exception reached the
caller") is always `false`, and the entry is persisted exactly when the
primary commit succeeds. -/
def log_audit_event (primaryOk esOk : Bool) (db : DB) (row : AuditLogRow) : DB × Bool :=
  if primaryOk then
    ({ db with audits := db.audits ++ [row] }, false)
  else
    (db, false)

/-! ### Role guard (`requires_role`) -/

/-- The `role_hierarchy` dict of `requires_role`. -/
def roleLevelOpt (r : String) : Option Nat :=
  if r = "user" then some 0
  else if r = "manager" then some 1
  else if r = "admin" then some 2
  else if r = "super_admin" then some 3
  else none

/-- `role_hierarchy.get(user.role, 0)`. -/
def userLevel (r : String) : Nat := (roleLevelOpt r).getD 0

/-- `role_hierarchy.get(required_role, 99)`. -/
def requiredLevel (r : String) : Nat := (roleLevelOpt r).getD 99

/-- Outcome of the role guard. -/
inductive RoleCheckResult where
  | denied
  | allowed
deriving DecidableEq, Repr

/-- The `access_denied` audit entry written on an insufficient role. -/
def accessDeniedRow (required : String) (u : UserRow) : AuditLogRow :=
  { user_id := some u.uid, event_type := "access_denied", action := "insufficient_role",
    resource_type := none, resource_id := none,
    details := [("required_role", required), ("user_role", u.role)] }

/-- Embeds the `requires_role` decorator body for an authenticated user:
compare hierarchy levels, and on an insufficient role record an
`access_denied` audit entry (through the fallible recorder) and then
report the 403 denial. -/
def requires_role (required : String) (u : UserRow) (auditOk : Bool) (db : DB) :
    DB × RoleCheckResult :=
  if userLevel u.role < requiredLevel required then
    ((log_audit_event auditOk true db (accessDeniedRow required u)).1, .denied)
  else
    (db, .allowed)

/-! ### Upload pipeline (`upload_file` route) -/

/-- One incoming multipart file: its client-supplied name and raw bytes. -/
structure IncomingFile where
  filename : String
  content : List Nat
deriving DecidableEq, Repr

/-- The per-file dict appended to `uploaded_files`. -/
structure FileSummary where
  fid : Nat
  name : String
  size : Nat
  ftype : String
deriving DecidableEq, Repr

/-- Success of the two `db.session.commit()` calls of one file's processing:
the metadata commit and the subsequent permission commit. -/
structure CommitOracle where
  metaOk : Bool
  permOk : Bool
deriving DecidableEq, Repr

/-- Outcome of processing one file of the batch. -/
inductive PerFile where
  | skipped
  | notAllowedAbort (msg : String)
  | dbFailure
  | committed (s : FileSummary)
deriving DecidableEq, Repr

/-- The stored extension: lowercased extension of the sanitized name when it
contains a dot, else empty (`secure_filename` is an external sanitizer and is
modelled as the identity; no claim depends on its transformations). -/
def storedExt (secure_name : String) : String :=
  if containsChar secure_name '.' then lowerStr (extOf secure_name) else ""

/-- The collision-free stored filename `f"{file_id}.{file_extension}"`. -/
def storedFilename (fid : Nat) (secure_name : String) : String :=
  toString fid ++ "." ++ storedExt secure_name

/-- The full on-disk location `os.path.join(upload_path, stored_filename)`. -/
def uploadFilePath (folder_path : String) (fid : Nat) (secure_name : String) : String :=
  joinPath (uploadDir folder_path) (storedFilename fid secure_name)

/-- The `FileMetadata` row built for one uploaded file: checksum of the
persisted bytes, size derived from the artifact, retention deadline
`now + RETENTION_POLICY_DAYS` days (in seconds). -/
def uploadMeta (u : UserRow) (orgId : Nat) (folder classification category : String)
    (fid now : Nat) (f : IncomingFile) : FileMetaRow :=
  { fid := fid, organization_id := orgId, name := f.filename, original_name := f.filename,
    file_path := uploadFilePath folder fid f.filename, file_type := storedExt f.filename,
    size := f.content.length, checksum := calculate_checksum f.content,
    folder_path := folder, classification := classification, category := category,
    retention_until := some (now + RETENTION_POLICY_DAYS * 86400), legal_hold := false,
    created_by_id := u.uid }

/-- The creator's permission row: all five capability flags granted. -/
def creatorPermission (fid uid : Nat) : FilePermissionRow :=
  { file_id := fid, user_id := uid, can_read := true, can_write := true,
    can_delete := true, can_share := true, can_admin := true, granted_by_id := uid }

/-- The `file_uploaded` audit entry. -/
def uploadAuditRow (uid fid : Nat) (original_name : String) (file_size : Nat) : AuditLogRow :=
  { user_id := some uid, event_type := "file_management", action := "file_uploaded",
    resource_type := some "file", resource_id := some fid,
    details := [("file_name", original_name), ("file_size", toString file_size)] }

/-- Embeds the body of the per-file loop of `upload_file`: an empty filename
is skipped with `continue`; a disallowed name aborts the batch with a 400;
otherwise the artifact is written, the metadata row is committed, the
creator permission row is committed separately, the asynchronous content
extraction is dispatched (fire-and-forget, no synchronous effect) and the
upload is audited.  A failing commit raises, which the route's outer
`except` turns into a 500; note that what was already committed stays. -/
def processFile (u : UserRow) (orgId : Nat) (folder classification category : String)
    (fid now : Nat) (o : CommitOracle) (auditOk : Bool) (db : DB) (f : IncomingFile) :
    DB × PerFile :=
  if f.filename = "" then (db, .skipped)
  else if !(allowed_file f.filename) then
    (db, .notAllowedAbort ("File type not allowed: " ++ f.filename))
  else
    let meta := uploadMeta u orgId folder classification category fid now f
    let db1 := { db with artifacts := db.artifacts ++ [(meta.file_path, f.content)] }
    if !o.metaOk then (db1, .dbFailure)
    else
      let db2 := { db1 with files := db1.files ++ [meta] }
      if !o.permOk then (db2, .dbFailure)
      else
        let db3 := { db2 with perms := db2.perms ++ [creatorPermission fid u.uid] }
        let db4 := (log_audit_event auditOk true db3
          (uploadAuditRow u.uid fid f.filename f.content.length)).1
        (db4, .committed { fid := fid, name := f.filename, size := f.content.length,
                           ftype := storedExt f.filename })

/-- The route's response: 200 with the summaries, 400 with only an error
message, or 500 (`Upload failed`) from the outer exception handler. -/
inductive UploadResponse where
  | ok (files : List FileSummary)
  | clientError (msg : String)
  | serverError
deriving DecidableEq, Repr

/-- The batch loop of `upload_file`.  `nextId` supplies the fresh uuid for
the next file that passes validation; `oracle` gives each file's commit
fates. -/
def uploadLoop (u : UserRow) (orgId : Nat) (folder classification category : String)
    (now : Nat) (auditOk : Bool) (oracle : Nat → CommitOracle) :
    DB → Nat → List IncomingFile → List FileSummary → DB × UploadResponse
  | db, _, [], acc => (db, .ok acc)
  | db, nextId, f :: rest, acc =>
    match processFile u orgId folder classification category nextId now (oracle nextId)
        auditOk db f with
    | (db', .skipped) =>
        uploadLoop u orgId folder classification category now auditOk oracle db' nextId rest acc
    | (db', .notAllowedAbort msg) => (db', .clientError msg)
    | (db', .dbFailure) => (db', .serverError)
    | (db', .committed s) =>
        uploadLoop u orgId folder classification category now auditOk oracle db' (nextId + 1)
          rest (acc ++ [s])

/-- Embeds the `upload_file` route for an authenticated user and a batch of
files. -/
def upload_file (u : UserRow) (orgId : Nat) (folder classification category : String)
    (now : Nat) (auditOk : Bool) (oracle : Nat → CommitOracle) (startId : Nat)
    (db : DB) (files : List IncomingFile) : DB × UploadResponse :=
  uploadLoop u orgId folder classification category now auditOk oracle db startId files []

/-! ### Retention sweep (`apply_retention_policies`) -/

/-- The sweep's selection predicate:
`retention_until < now AND legal_hold == False` (a NULL deadline never
compares below `now`). -/
def retentionExpired (now : Nat) (f : FileMetaRow) : Bool :=
  (match f.retention_until with
   | some t => decide (t < now)
   | none => false) && !f.legal_hold

/-- The materialised `expired_files` query result. -/
def expiredFiles (db : DB) (now : Nat) : List FileMetaRow :=
  db.files.filter (retentionExpired now)

/-- `os.path.exists(file_meta.file_path)`. -/
def artifactExists (db : DB) (p : String) : Bool :=
  db.artifacts.any (fun a => a.1 == p)

/-- `os.remove(file_meta.file_path)`. -/
def removeArtifact (db : DB) (p : String) : DB :=
  { db with artifacts := db.artifacts.filter (fun a => a.1 != p) }

/-- The `file_deleted` audit entry of the sweep. -/
def retentionAuditRow (f : FileMetaRow) : AuditLogRow :=
  { user_id := none, event_type := "data_retention", action := "file_deleted",
    resource_type := some "file", resource_id := some f.fid,
    details := [("reason", "retention_policy"), ("file_name", f.name)] }

/-- Embeds the body of the sweep loop for one expired file: for
`confidential`/`restricted` classifications the backing artifact is removed
(plain `os.remove`, guarded by existence); for other classifications the
artifact is not touched; then the deletion is audited and only then is the
metadata row deleted. -/
def sweepOne (auditOk : Bool) (db : DB) (f : FileMetaRow) : DB :=
  let db1 :=
    if (f.classification = "confidential" || f.classification = "restricted") &&
        artifactExists db f.file_path then
      removeArtifact db f.file_path
    else db
  let db2 := (log_audit_event auditOk true db1 (retentionAuditRow f)).1
  { db2 with files := db2.files.filter (fun g => g.fid != f.fid) }

/-- Embeds `apply_retention_policies`: select the expired, non-held files
and sweep each in turn. -/
def apply_retention_policies (auditOk : Bool) (db : DB) (now : Nat) : DB :=
  (expiredFiles db now).foldl (sweepOne auditOk) db

/-! ### Login (`login` route) -/

/-- Outcome of the login route for a submitted form naming an existing user. -/
inductive LoginOutcome where
  | lockedOut
  | failed2fa
  | success
  | badCredentials
deriving DecidableEq, Repr

/-- An `authentication` audit entry. -/
def authAuditRow (uid : Nat) (action : String) : AuditLogRow :=
  { user_id := some uid, event_type := "authentication", action := action,
    resource_type := none, resource_id := none, details := [] }

/-- Embeds the `login` route for an existing user.  `passwordOk` is
`user.check_password(...)`, `totpOk` the TOTP verification; time is in
seconds, so the 30-minute lock is `now + 1800`.  With a correct password:
a still-active lock refuses the login; then 2FA is checked; then the
failure counters are cleared and the login succeeds.  With a wrong
password: the failure counter is incremented and, once it has reached 5,
the lock is (re)set 30 minutes into the future. -/
def login (auditOk : Bool) (db : DB) (u : UserRow) (passwordOk totpOk : Bool) (now : Nat) :
    DB × UserRow × LoginOutcome :=
  if passwordOk then
    if (match u.locked_until with
        | some t => decide (now < t)
        | none => false) then
      (db, u, .lockedOut)
    else if u.two_factor_enabled && !totpOk then
      ((log_audit_event auditOk true db (authAuditRow u.uid "login_failed_2fa")).1, u, .failed2fa)
    else
      let u' := { u with failed_login_attempts := 0, locked_until := none,
                         last_login := some now }
      ((log_audit_event auditOk true db (authAuditRow u.uid "login_success")).1, u', .success)
  else
    let u1 := { u with failed_login_attempts := u.failed_login_attempts + 1 }
    let u2 := if u1.failed_login_attempts ≥ 5 then
        { u1 with locked_until := some (now + 1800) }
      else u1
    ((log_audit_event auditOk true db (authAuditRow u.uid "login_failed")).1, u2, .badCredentials)

/-! ### Concrete fixtures referenced by witnesses and counterexamples -/

/-- An empty database. -/
def db0 : DB := { files := [], perms := [], audits := [], artifacts := [] }

/-- A plain user. -/
def u0 : UserRow :=
  { uid := 1, role := "user", failed_login_attempts := 0, locked_until := none,
    two_factor_enabled := false, last_login := none }

/-- A user with four failed login attempts on record. -/
def u4 : UserRow :=
  { uid := 2, role := "user", failed_login_attempts := 4, locked_until := none,
    two_factor_enabled := false, last_login := none }

/-- A user locked until time 2000. -/
def uLocked : UserRow :=
  { uid := 3, role := "user", failed_login_attempts := 5, locked_until := some 2000,
    two_factor_enabled := false, last_login := none }

/-- An allowed text file with empty content. -/
def fTxtA : IncomingFile := { filename := "a.txt", content := [] }

/-- A file with a disallowed extension. -/
def fExe : IncomingFile := { filename := "b.exe", content := [] }

/-- A second allowed text file. -/
def fTxtC : IncomingFile := { filename := "c.txt", content := [] }

/-- A file submitted with an empty filename. -/
def fEmptyName : IncomingFile := { filename := "", content := [1, 2, 3] }

/-- A generic audit entry. -/
def auditRow0 : AuditLogRow :=
  { user_id := some 1, event_type := "file_management", action := "file_uploaded",
    resource_type := some "file", resource_id := some 1, details := [] }

/-- A restricted file on legal hold, long past its retention deadline. -/
def fHold : FileMetaRow :=
  { fid := 1, organization_id := 1, name := "held.txt", original_name := "held.txt",
    file_path := "enterprise_files/p1", file_type := "txt", size := 1, checksum := "",
    folder_path := "", classification := "restricted", category := "",
    retention_until := some 10, legal_hold := true, created_by_id := 1 }

/-- An expired internal file (no legal hold). -/
def fExpired : FileMetaRow :=
  { fid := 2, organization_id := 1, name := "old.txt", original_name := "old.txt",
    file_path := "enterprise_files/p2", file_type := "txt", size := 1, checksum := "",
    folder_path := "", classification := "internal", category := "",
    retention_until := some 10, legal_hold := false, created_by_id := 1 }

/-- Database for the legal-hold scenario: one held file, one expired file,
both with artifacts on disk. -/
def dbC4 : DB :=
  { files := [fHold, fExpired], perms := [], audits := [],
    artifacts := [("enterprise_files/p1", [1]), ("enterprise_files/p2", [2])] }

/-- An expired public file (lowest classification) whose artifact exists. -/
def fPub : FileMetaRow :=
  { fid := 7, organization_id := 1, name := "pub.txt", original_name := "pub.txt",
    file_path := "enterprise_files/p7", file_type := "txt", size := 1, checksum := "",
    folder_path := "", classification := "public", category := "",
    retention_until := some 10, legal_hold := false, created_by_id := 1 }

/-- Database holding only the expired public file and its artifact. -/
def dbC5 : DB :=
  { files := [fPub], perms := [], audits := [],
    artifacts := [("enterprise_files/p7", [1])] }

/-- An expired restricted file whose artifact exists. -/
def fRestr : FileMetaRow :=
  { fid := 8, organization_id := 1, name := "sec.txt", original_name := "sec.txt",
    file_path := "enterprise_files/p8", file_type := "txt", size := 1, checksum := "",
    folder_path := "", classification := "restricted", category := "",
    retention_until := some 10, legal_hold := false, created_by_id := 1 }

/-- Database holding only the expired restricted file and its artifact. -/
def dbC5b : DB :=
  { files := [fRestr], perms := [], audits := [],
    artifacts := [("enterprise_files/p8", [9])] }

/-- The database state after the successful commit of `fTxtA` alone
(batch prefix used by the batch-abort witness). -/
def dbAfterA : DB :=
  (upload_file u0 1 "docs" "internal" "" 0 true
    (fun _ => { metaOk := true, permOk := true }) 0 db0 [fTxtA]).1

/-! ### Properties of the checksum service -/

/-- Joining the chunks reproduces the original list (worker version). -/
theorem chunkFuel_join (n : Nat) (hn : 0 < n) :
    ∀ (fuel : Nat) (l : List α), l.length ≤ fuel → (chunkFuel n fuel l).flatten = l := by
  intro fuel
  induction fuel with
  | zero =>
    intro l hl
    cases l with
    | nil => simp [chunkFuel]
    | cons x xs => simp at hl
  | succ f ih =>
    intro l hl
    cases l with
    | nil => simp [chunkFuel]
    | cons x xs =>
      have hdrop : ((x :: xs).drop n).length ≤ f := by
        rw [List.length_drop]; omega
      show ((x :: xs).take n :: chunkFuel n f ((x :: xs).drop n)).flatten = x :: xs
      rw [List.flatten_cons, ih ((x :: xs).drop n) hdrop]
      exact List.take_append_drop n (x :: xs)

/-- Joining the chunks reproduces the original list. -/
theorem chunk_join (n : Nat) (hn : 0 < n) (l : List α) : (chunk n l).flatten = l := by
  unfold chunk
  rw [if_neg (Nat.pos_iff_ne_zero.mp hn)]
  exact chunkFuel_join n hn l.length l le_rfl

/-- Folding `update` over blocks absorbs exactly their concatenation. -/
theorem foldl_sha256_update (ls : List (List Nat)) :
    ∀ acc, ls.foldl sha256_update acc = acc ++ ls.flatten := by
  induction ls with
  | nil => intro acc; simp
  | cons l ls ih =>
    intro acc
    rw [List.foldl_cons, ih, List.flatten_cons]
    simp [sha256_update]

/-- Feeding the stream to the hasher in 4096-byte chunks produces the digest
of the whole stream. -/
theorem calculate_checksum_eq_sha256hex (content : List Nat) :
    calculate_checksum content = sha256hex content := by
  unfold calculate_checksum
  rw [foldl_sha256_update, chunk_join 4096 (by norm_num), List.nil_append]

/-- The lowercase hexadecimal alphabet. -/
def hexChars : List Char := "0123456789abcdef".data

/-- Every hex digit of a value below 16 lies in the hex alphabet. -/
theorem hexDigit_mem : ∀ m, m < 16 → hexDigit m ∈ hexChars := by decide

/-- Every character printed for a word lies in the hex alphabet. -/
theorem toHex8_mem (x : Nat) : ∀ c ∈ toHex8 x, c ∈ hexChars := by
  intro c hc
  simp only [toHex8, List.mem_cons, List.not_mem_nil, or_false] at hc
  rcases hc with h | h | h | h | h | h | h | h <;>
    (subst h; exact hexDigit_mem _ (Nat.mod_lt _ (by norm_num)))

/-- The digest has exactly 64 characters. -/
theorem sha256hex_length (m : List Nat) : (sha256hex m).length = 64 := by
  simp [sha256hex, String.length, toHex8]

/-- Every character of the digest is a lowercase hex digit. -/
theorem sha256hex_mem (m : List Nat) : ∀ c ∈ (sha256hex m).data, c ∈ hexChars := by
  intro c hc
  simp only [sha256hex, String.mk, List.mem_append] at hc
  rcases hc with ((((((h | h) | h) | h) | h) | h) | h) | h <;> exact toHex8_mem _ c h

/-- Known-answer test: the digest of the empty byte stream. -/
theorem sha256hex_nil :
    sha256hex [] = "e3b0c44298fc1c149afbf4c8996fb92427ae41e4649b934ca495991b7852b855" := by
  decide

/-- Known-answer test: the digest of the three bytes of "abc". -/
theorem calculate_checksum_abc :
    calculate_checksum [97, 98, 99] =
      "ba7816bf8f01cfea414140de5dae2223b00361a396177a9cb410ff61f20015ad" := by
  decide

/-! ### C7: the checksum service -/

/-- C7 (confirmed): the checksum service is a pure function; feeding the
stream to the hasher in fixed 4096-byte chunks yields exactly the SHA-256
digest of the full stream contents; the digest has 64 characters, all of
them lowercase hexadecimal; and the metadata row built at commit time
stores exactly the checksum of the persisted content, so re-hashing the
stored content reproduces the recorded checksum. -/
theorem C7_checksum_service :
    (∀ content : List Nat, calculate_checksum content = sha256hex content) ∧
    (∀ content : List Nat, (calculate_checksum content).length = 64) ∧
    (∀ (content : List Nat) (c : Char), c ∈ (calculate_checksum content).data → c ∈ hexChars) ∧
    (∀ (u : UserRow) (orgId : Nat) (folder classification category : String)
        (fid now : Nat) (f : IncomingFile),
      (uploadMeta u orgId folder classification category fid now f).checksum =
        calculate_checksum f.content) :=
  ⟨calculate_checksum_eq_sha256hex,
   fun content => by rw [calculate_checksum_eq_sha256hex]; exact sha256hex_length content,
   fun content c hc => by
     rw [calculate_checksum_eq_sha256hex] at hc
     exact sha256hex_mem content c hc,
   fun _ _ _ _ _ _ _ _ => rfl⟩

/-- C7 witness: the checksum properties evaluated at concrete inputs. -/
theorem C7_witness :
    calculate_checksum [] = sha256hex [] ∧
    (calculate_checksum []).length = 64 ∧
    'e' ∈ hexChars ∧
    (uploadMeta u0 1 "" "internal" "" 0 0 fTxtA).checksum = calculate_checksum fTxtA.content :=
  ⟨C7_checksum_service.1 [],
   C7_checksum_service.2.1 [],
   C7_checksum_service.2.2.1 [] 'e' (by decide),
   C7_checksum_service.2.2.2 u0 1 "" "internal" "" 0 0 fTxtA⟩

/-! ### C3: path traversal in storage path allocation -/

/-- C3 (code bug): the route builds the upload directory as
`os.path.join(UPLOAD_FOLDER, folder_path.strip('/'))`, which only strips
leading and trailing slashes and performs no traversal check at all — there
is no `InvalidPathError` anywhere in the code.  For the caller-supplied
folder path `".."` the allocated directory is `enterprise_files/..`, whose
normalisation escapes the configured upload root, and the upload then
proceeds with full side effects: the artifact is written at
`enterprise_files/../0.txt`, outside the root.  This contradicts the claim
that traversal segments are rejected or neutralised before any side
effect. -/
theorem C3_traversal_not_rejected :
    uploadDir ".." = "enterprise_files/.." ∧
    escapesUploadRoot ".." = true ∧
    (processFile u0 1 ".." "internal" "" 0 0 { metaOk := true, permOk := true } true db0
        fTxtA).2 =
      PerFile.committed { fid := 0, name := "a.txt", size := 0, ftype := "txt" } ∧
    (processFile u0 1 ".." "internal" "" 0 0 { metaOk := true, permOk := true } true db0
        fTxtA).1.artifacts = [("enterprise_files/../0.txt", [])] := by
  decide

/-! ### C6: the audit recorder swallows persistence failures -/

/-- C6 counterexample: with a failing primary store the recorder returns
normally — the second component (an exception reaching the caller) is
`false` and the database is unchanged, so the triggering operation is not
notified of the failure, contradicting the claim that a primary-store
failure is reported to the caller. -/
theorem C6_counterexample :
    log_audit_event false true db0 auditRow0 = (db0, false) := by
  decide

/-- C6 (amended): the audit recorder never propagates any failure to its
caller — both a primary-store failure and a secondary search-index failure
are caught and logged inside the recorder; the entry is persisted exactly
when the primary commit succeeds, and the outcome is independent of the
search-index fate. -/
theorem C6_audit_failures_swallowed (primaryOk e1 e2 : Bool) (db : DB) (row : AuditLogRow) :
    log_audit_event primaryOk e1 db row =
      ({ db with audits := db.audits ++ (if primaryOk then [row] else []) }, false) ∧
    log_audit_event primaryOk e1 db row = log_audit_event primaryOk e2 db row := by
  cases primaryOk <;> simp [log_audit_event]

/-! ### C9: the role guard -/

/-- C9 counterexample: when the audit store's primary persistence fails,
the guard still reports the 403 denial while no `access_denied` entry has
been recorded anywhere (the failure is swallowed inside
`log_audit_event`), contradicting the claim that the entry is durably
recorded before the denial is reported. -/
theorem C9_counterexample :
    requires_role "admin" u0 false db0 = (db0, RoleCheckResult.denied) := by
  decide

/-- C9 (amended): a user whose role is strictly below the required level in
the hierarchy user < manager < admin < super_admin (with unknown roles
defaulting to the lowest level and unknown requirements to an unreachable
level — default-deny) is denied, and the `access_denied` entry recording
the required and held roles is appended before the denial is returned
whenever the audit store's primary persistence succeeds; if it fails, the
failure is swallowed and the denial is still reported without a recorded
entry. -/
theorem C9_denied_below_required_role (required : String) (u : UserRow) (auditOk : Bool)
    (db : DB) (h : userLevel u.role < requiredLevel required) :
    requires_role required u auditOk db =
      ({ db with audits := db.audits ++ (if auditOk then [accessDeniedRow required u] else []) },
       RoleCheckResult.denied) := by
  unfold requires_role
  rw [if_pos h]
  cases auditOk <;> simp [log_audit_event]

/-- C9 witness: a plain user requesting an admin-guarded route is denied
and (with a working audit store) the `access_denied` entry is recorded. -/
theorem C9_witness :
    requires_role "admin" u0 true db0 =
      ({ db0 with audits := db0.audits ++ [accessDeniedRow "admin" u0] },
       RoleCheckResult.denied) := by
  have h := C9_denied_below_required_role "admin" u0 true db0 (by decide)
  simpa using h

/-! ### C10: login lockout -/

/-- C10 (confirmed): each failed password attempt for an existing user
increments `failed_login_attempts`; once the incremented count has reached
5 the lock is set 30 minutes (1800 seconds) into the future; while
`locked_until` lies in the future a login is refused even with a correct
password; and every successful login resets the counter to 0 and clears
`locked_until`. -/
theorem C10_login_lockout :
    (∀ (aOk : Bool) (db : DB) (u : UserRow) (tOk : Bool) (now : Nat),
        (login aOk db u false tOk now).2.1.failed_login_attempts =
          u.failed_login_attempts + 1) ∧
    (∀ (aOk : Bool) (db : DB) (u : UserRow) (tOk : Bool) (now : Nat),
        4 ≤ u.failed_login_attempts →
        (login aOk db u false tOk now).2.1.locked_until = some (now + 1800)) ∧
    (∀ (aOk : Bool) (db : DB) (u : UserRow) (tOk : Bool) (now t : Nat),
        u.locked_until = some t → now < t →
        (login aOk db u true tOk now).2.2 = LoginOutcome.lockedOut) ∧
    (∀ (aOk : Bool) (db : DB) (u : UserRow) (pOk tOk : Bool) (now : Nat),
        (login aOk db u pOk tOk now).2.2 = LoginOutcome.success →
        (login aOk db u pOk tOk now).2.1.failed_login_attempts = 0 ∧
        (login aOk db u pOk tOk now).2.1.locked_until = none) := by
  refine ⟨?_, ?_, ?_, ?_⟩
  · intro aOk db u tOk now
    simp only [login, Bool.false_eq_true, if_false]
    split <;> rfl
  · intro aOk db u tOk now h
    simp only [login, Bool.false_eq_true, if_false]
    rw [if_pos (by omega)]
  · intro aOk db u tOk now t hlock hnow
    simp [login, hlock, hnow]
  · intro aOk db u pOk tOk now h
    cases pOk with
    | false =>
      simp only [login, Bool.false_eq_true, if_false] at h
      simp at h
    | true =>
      unfold login at h ⊢
      rw [if_pos rfl] at h ⊢
      split at h
      next hcond => simp at h
      next hcond =>
        rw [if_neg hcond]
        split at h
        next h2 => simp at h
        next h2 =>
          rw [if_neg h2]
          exact ⟨rfl, rfl⟩

/-- C10 witness: the lockout behaviour at concrete users and times. -/
theorem C10_witness :
    (login true db0 u4 false true 100).2.1.failed_login_attempts =
      u4.failed_login_attempts + 1 ∧
    (login true db0 u4 false true 100).2.1.locked_until = some (100 + 1800) ∧
    (login true db0 uLocked true true 100).2.2 = LoginOutcome.lockedOut ∧
    ((login true db0 u0 true true 100).2.1.failed_login_attempts = 0 ∧
      (login true db0 u0 true true 100).2.1.locked_until = none) :=
  ⟨C10_login_lockout.1 true db0 u4 true 100,
   C10_login_lockout.2.1 true db0 u4 true 100 (by decide),
   C10_login_lockout.2.2.1 true db0 uLocked true 100 2000 rfl (by decide),
   C10_login_lockout.2.2.2 true db0 u0 true true 100 (by decide)⟩

/-! ### Retention sweep lemmas -/

/-- Sweeping one file removes exactly that id from the files table. -/
theorem sweepOne_files (aOk : Bool) (db : DB) (f : FileMetaRow) :
    (sweepOne aOk db f).files = db.files.filter (fun g => g.fid != f.fid) := by
  unfold sweepOne log_audit_event removeArtifact
  cases aOk <;> split <;> rfl

/-- With a working audit store, sweeping one file appends exactly its
`file_deleted` entry. -/
theorem sweepOne_audits (db : DB) (f : FileMetaRow) :
    (sweepOne true db f).audits = db.audits ++ [retentionAuditRow f] := by
  unfold sweepOne log_audit_event removeArtifact
  split <;> rfl

/-- The artifact store after sweeping one file. -/
theorem sweepOne_artifacts_eq (aOk : Bool) (db : DB) (f : FileMetaRow) :
    (sweepOne aOk db f).artifacts =
      if (f.classification = "confidential" || f.classification = "restricted") &&
          artifactExists db f.file_path then
        db.artifacts.filter (fun a => a.1 != f.file_path)
      else db.artifacts := by
  unfold sweepOne log_audit_event removeArtifact
  cases aOk <;> split <;> rfl

/-- An artifact at a different path survives the sweep of one file. -/
theorem sweepOne_artifacts_mem (aOk : Bool) (db : DB) (f : FileMetaRow)
    (a : String × List Nat) (ha : a ∈ db.artifacts) (hne : a.1 ≠ f.file_path) :
    a ∈ (sweepOne aOk db f).artifacts := by
  rw [sweepOne_artifacts_eq]
  split
  · exact List.mem_filter.mpr ⟨ha, by simpa using hne⟩
  · exact ha

/-- A file whose id and path differ from all swept files survives the whole
fold, together with its artifact. -/
theorem sweep_fold_preserves (aOk : Bool) (f : FileMetaRow) :
    ∀ (l : List FileMetaRow) (db : DB),
      (∀ g ∈ l, g.fid ≠ f.fid ∧ g.file_path ≠ f.file_path) →
      (f ∈ db.files → f ∈ (l.foldl (sweepOne aOk) db).files) ∧
      (∀ a ∈ db.artifacts, a.1 = f.file_path → a ∈ (l.foldl (sweepOne aOk) db).artifacts) := by
  intro l
  induction l with
  | nil => intro db _; exact ⟨fun hf => hf, fun a ha _ => ha⟩
  | cons g gs ih =>
    intro db h
    have hg := h g (List.mem_cons_self g gs)
    have ih' := ih (sweepOne aOk db g) (fun x hx => h x (List.mem_cons_of_mem g hx))
    rw [List.foldl_cons]
    constructor
    · intro hf
      apply ih'.1
      rw [sweepOne_files]
      refine List.mem_filter.mpr ⟨hf, ?_⟩
      simp only [bne_iff_ne, ne_eq]
      exact fun e => hg.1 e.symm
    · intro a ha hap
      refine ih'.2 a ?_ hap
      exact sweepOne_artifacts_mem aOk db g a ha (by rw [hap]; exact fun e => hg.2 e.symm)

/-! ### C4: legal hold protects a file from the sweep -/

/-- C4 (confirmed): the sweep selects exactly the files with
`retention_until < now` and `legal_hold = false`; hence a file on legal
hold — however far past its deadline — is never selected, its metadata row
survives the sweep and its backing artifact is untouched.  The two
uniqueness hypotheses are the primary-key invariant on ids and the
uniqueness of stored paths (paths come from freshly generated uuids). -/
theorem C4_legal_hold_never_deleted (db : DB) (now : Nat) (auditOk : Bool) (f : FileMetaRow)
    (hmem : f ∈ db.files) (hhold : f.legal_hold = true)
    (hpk : ∀ g ∈ db.files, g.fid = f.fid → g = f)
    (hpath : ∀ g ∈ db.files, g.file_path = f.file_path → g = f) :
    (f ∈ (apply_retention_policies auditOk db now).files ∧
      ∀ a ∈ db.artifacts, a.1 = f.file_path →
        a ∈ (apply_retention_policies auditOk db now).artifacts) ∧
    ∀ g, g ∈ expiredFiles db now ↔
      (g ∈ db.files ∧ (∃ t, g.retention_until = some t ∧ t < now) ∧
        g.legal_hold = false) := by
  have hchar : ∀ g, g ∈ expiredFiles db now ↔
      (g ∈ db.files ∧ (∃ t, g.retention_until = some t ∧ t < now) ∧
        g.legal_hold = false) := by
    intro g
    simp only [expiredFiles, List.mem_filter, retentionExpired, Bool.and_eq_true,
      Bool.not_eq_true']
    cases hr : g.retention_until <;> simp [hr]
  refine ⟨?_, hchar⟩
  have hsel : ∀ g ∈ expiredFiles db now, g.fid ≠ f.fid ∧ g.file_path ≠ f.file_path := by
    intro g hgm
    obtain ⟨hgdb, _, hglh⟩ := (hchar g).mp hgm
    have hgf : g ≠ f := by
      intro e
      rw [e, hhold] at hglh
      cases hglh
    exact ⟨fun e => hgf (hpk g hgdb e), fun e => hgf (hpath g hgdb e)⟩
  have h := sweep_fold_preserves auditOk f (expiredFiles db now) db hsel
  exact ⟨h.1 hmem, h.2⟩

/-- C4 witness: in a database holding a legally-held file (deadline long
past) and an expired file, the sweep keeps the held file's metadata and
artifact while the expired file is selected. -/
theorem C4_witness :
    fHold ∈ (apply_retention_policies true dbC4 100).files ∧
    ("enterprise_files/p1", [1]) ∈ (apply_retention_policies true dbC4 100).artifacts ∧
    (fExpired ∈ dbC4.files ∧ (∃ t, fExpired.retention_until = some t ∧ t < 100) ∧
      fExpired.legal_hold = false) := by
  have h := C4_legal_hold_never_deleted dbC4 100 true fHold (by decide) rfl
    (by decide) (by decide)
  exact ⟨h.1.1, h.1.2 ("enterprise_files/p1", [1]) (by decide) rfl,
    (h.2 fExpired).mp (by decide)⟩

/-! ### C5: what the sweep actually does to a selected file -/

/-- C5 counterexample: an expired `public` file with `legal_hold = false`
and an existing artifact: the sweep audits and removes its metadata row but
leaves the backing artifact in place — the code only removes artifacts for
`confidential`/`restricted` classifications — contradicting the claim that
for lower classifications the artifact is deleted by ordinary means. -/
theorem C5_counterexample :
    (apply_retention_policies true dbC5 100).files = [] ∧
    (apply_retention_policies true dbC5 100).artifacts = [("enterprise_files/p7", [1])] ∧
    (apply_retention_policies true dbC5 100).audits = [retentionAuditRow fPub] := by
  decide

/-- C5 (amended): for a selected file of classification
`confidential`/`restricted` the backing artifact is removed by a plain
delete (not an overwrite-based secure erase) before the metadata row is
removed; for lower classifications the artifact is left in place; and each
sweep records the `file_deleted` audit entry with reason
`retention_policy` and only then removes the metadata row. -/
theorem C5_swept_file_effects (db : DB) (f : FileMetaRow) :
    ((f.classification = "confidential" ∨ f.classification = "restricted") →
        (sweepOne true db f).artifacts =
          db.artifacts.filter (fun a => a.1 != f.file_path)) ∧
    (f.classification ≠ "confidential" → f.classification ≠ "restricted" →
        (sweepOne true db f).artifacts = db.artifacts) ∧
    (sweepOne true db f).audits = db.audits ++ [retentionAuditRow f] ∧
    (sweepOne true db f).files = db.files.filter (fun g => g.fid != f.fid) := by
  refine ⟨?_, ?_, sweepOne_audits db f, sweepOne_files true db f⟩
  · intro hc
    rw [sweepOne_artifacts_eq]
    cases he : artifactExists db f.file_path with
    | true => rw [if_pos (by rcases hc with h | h <;> simp [h, he])]
    | false =>
      rw [if_neg (by simp [he])]
      refine (List.filter_eq_self.mpr ?_).symm
      intro a ha
      cases hx : (a.1 == f.file_path) with
      | false => simp [bne, hx]
      | true =>
        have hex : artifactExists db f.file_path = true := by
          unfold artifactExists
          exact List.any_eq_true.mpr ⟨a, ha, hx⟩
        rw [he] at hex
        cases hex
  · intro h1 h2
    rw [sweepOne_artifacts_eq]
    rw [if_neg (by simp [h1, h2])]

/-- C5 witness: the sweep effects at a concrete expired restricted file. -/
theorem C5_witness :
    (sweepOne true dbC5b fRestr).artifacts =
      dbC5b.artifacts.filter (fun a => a.1 != fRestr.file_path) ∧
    (sweepOne true dbC5b fRestr).audits = dbC5b.audits ++ [retentionAuditRow fRestr] ∧
    (sweepOne true dbC5b fRestr).files = dbC5b.files.filter (fun g => g.fid != fRestr.fid) :=
  ⟨(C5_swept_file_effects dbC5b fRestr).1 (Or.inr rfl),
   (C5_swept_file_effects dbC5b fRestr).2.2.1,
   (C5_swept_file_effects dbC5b fRestr).2.2.2⟩

/-! ### Upload pipeline lemmas -/

/-- An empty filename is skipped with no effect on the state. -/
theorem processFile_empty (u : UserRow) (orgId : Nat) (folder classification category : String)
    (fid now : Nat) (o : CommitOracle) (auditOk : Bool) (db : DB) (f : IncomingFile)
    (h : f.filename = "") :
    processFile u orgId folder classification category fid now o auditOk db f =
      (db, PerFile.skipped) := by
  simp [processFile, h]

/-- A disallowed filename aborts with a 400 and no effect on the state. -/
theorem processFile_notAllowed (u : UserRow) (orgId : Nat)
    (folder classification category : String) (fid now : Nat) (o : CommitOracle)
    (auditOk : Bool) (db : DB) (f : IncomingFile)
    (h1 : f.filename ≠ "") (h2 : allowed_file f.filename = false) :
    processFile u orgId folder classification category fid now o auditOk db f =
      (db, PerFile.notAllowedAbort ("File type not allowed: " ++ f.filename)) := by
  simp [processFile, h1, h2]

/-- The full effect of one successfully committed file. -/
theorem processFile_success (u : UserRow) (orgId : Nat)
    (folder classification category : String) (fid now : Nat) (auditOk : Bool)
    (db : DB) (f : IncomingFile)
    (h1 : f.filename ≠ "") (h2 : allowed_file f.filename = true) :
    processFile u orgId folder classification category fid now
        { metaOk := true, permOk := true } auditOk db f =
      ({ files := db.files ++ [uploadMeta u orgId folder classification category fid now f],
         perms := db.perms ++ [creatorPermission fid u.uid],
         audits := db.audits ++ (if auditOk then
           [uploadAuditRow u.uid fid f.filename f.content.length] else []),
         artifacts := db.artifacts ++
           [((uploadMeta u orgId folder classification category fid now f).file_path,
             f.content)] },
       PerFile.committed { fid := fid, name := f.filename, size := f.content.length,
                           ftype := storedExt f.filename }) := by
  cases auditOk <;> simp [processFile, h1, h2, log_audit_event]

/-- When the permission commit fails after the metadata commit succeeded,
the metadata row (and the artifact) are kept but no permission row is. -/
theorem processFile_permFail (u : UserRow) (orgId : Nat)
    (folder classification category : String) (fid now : Nat) (auditOk : Bool)
    (db : DB) (f : IncomingFile)
    (h1 : f.filename ≠ "") (h2 : allowed_file f.filename = true) :
    processFile u orgId folder classification category fid now
        { metaOk := true, permOk := false } auditOk db f =
      ({ files := db.files ++ [uploadMeta u orgId folder classification category fid now f],
         perms := db.perms,
         audits := db.audits,
         artifacts := db.artifacts ++
           [((uploadMeta u orgId folder classification category fid now f).file_path,
             f.content)] },
       PerFile.dbFailure) := by
  simp [processFile, h1, h2]

/-- The response and state of a single-file batch that commits cleanly. -/
theorem upload_single_success (u : UserRow) (orgId : Nat)
    (folder classification category : String) (now : Nat) (auditOk : Bool)
    (startId : Nat) (db : DB) (f : IncomingFile)
    (hname : f.filename ≠ "") (hallow : allowed_file f.filename = true) :
    upload_file u orgId folder classification category now auditOk
        (fun _ => { metaOk := true, permOk := true }) startId db [f] =
      ({ files := db.files ++ [uploadMeta u orgId folder classification category startId now f],
         perms := db.perms ++ [creatorPermission startId u.uid],
         audits := db.audits ++ (if auditOk then
           [uploadAuditRow u.uid startId f.filename f.content.length] else []),
         artifacts := db.artifacts ++
           [((uploadMeta u orgId folder classification category startId now f).file_path,
             f.content)] },
       UploadResponse.ok [{ fid := startId, name := f.filename, size := f.content.length,
                            ftype := storedExt f.filename }]) := by
  unfold upload_file
  rw [uploadLoop,
    processFile_success u orgId folder classification category startId now auditOk db f
      hname hallow]
  rfl

/-- The response and state of a single-file batch whose permission commit
fails after its metadata commit succeeded. -/
theorem upload_single_permFail (u : UserRow) (orgId : Nat)
    (folder classification category : String) (now : Nat) (auditOk : Bool)
    (startId : Nat) (db : DB) (f : IncomingFile)
    (hname : f.filename ≠ "") (hallow : allowed_file f.filename = true) :
    upload_file u orgId folder classification category now auditOk
        (fun _ => { metaOk := true, permOk := false }) startId db [f] =
      ({ files := db.files ++ [uploadMeta u orgId folder classification category startId now f],
         perms := db.perms,
         audits := db.audits,
         artifacts := db.artifacts ++
           [((uploadMeta u orgId folder classification category startId now f).file_path,
             f.content)] },
       UploadResponse.serverError) := by
  unfold upload_file
  rw [uploadLoop,
    processFile_permFail u orgId folder classification category startId now auditOk db f
      hname hallow]

/-! ### C1: metadata commit and permission commit -/

/-- C1 counterexample: the two insertions are separate commits.  With the
metadata commit succeeding and the subsequent permission commit failing,
the committed state holds the file record while the permission table is
empty — a committed file record exists with no fully-capable grantee, so
the two rows do not form one atomic commit. -/
theorem C1_counterexample :
    (upload_file u0 1 "" "internal" "" 0 true
        (fun _ => { metaOk := true, permOk := false }) 5 db0 [fTxtA]).1.files.map
          (fun m => m.fid) = [5] ∧
    (upload_file u0 1 "" "internal" "" 0 true
        (fun _ => { metaOk := true, permOk := false }) 5 db0 [fTxtA]).1.perms = [] ∧
    (upload_file u0 1 "" "internal" "" 0 true
        (fun _ => { metaOk := true, permOk := false }) 5 db0 [fTxtA]).2 =
      UploadResponse.serverError := by
  decide

/-- C1 (amended): after a fully successful upload exactly one
full-capability `FilePermission` row for the creator exists for the new
file (given the freshness of its id); but the metadata and permission
insertions are two separate commits, and when the permission commit fails
after the metadata commit succeeded, the metadata row remains committed
with no permission row — the pair is not atomic. -/
theorem C1_creator_permission (u : UserRow) (orgId : Nat)
    (folder classification category : String) (now : Nat) (auditOk : Bool)
    (startId : Nat) (db : DB) (f : IncomingFile)
    (hname : f.filename ≠ "") (hallow : allowed_file f.filename = true)
    (hfresh : ∀ p ∈ db.perms, p.file_id ≠ startId) :
    ((upload_file u orgId folder classification category now auditOk
        (fun _ => { metaOk := true, permOk := true }) startId db [f]).1.perms.filter
          (fun p => p.file_id == startId) = [creatorPermission startId u.uid] ∧
      (upload_file u orgId folder classification category now auditOk
        (fun _ => { metaOk := true, permOk := true }) startId db [f]).2 =
        UploadResponse.ok [{ fid := startId, name := f.filename, size := f.content.length,
                             ftype := storedExt f.filename }]) ∧
    ((upload_file u orgId folder classification category now auditOk
        (fun _ => { metaOk := true, permOk := false }) startId db [f]).1.files =
        db.files ++ [uploadMeta u orgId folder classification category startId now f] ∧
      (upload_file u orgId folder classification category now auditOk
        (fun _ => { metaOk := true, permOk := false }) startId db [f]).1.perms = db.perms ∧
      (upload_file u orgId folder classification category now auditOk
        (fun _ => { metaOk := true, permOk := false }) startId db [f]).2 =
        UploadResponse.serverError) := by
  have hs := upload_single_success u orgId folder classification category now auditOk
    startId db f hname hallow
  have hf := upload_single_permFail u orgId folder classification category now auditOk
    startId db f hname hallow
  refine ⟨⟨?_, ?_⟩, ?_, ?_, ?_⟩
  · rw [hs]
    show (db.perms ++ [creatorPermission startId u.uid]).filter
        (fun p => p.file_id == startId) = _
    rw [List.filter_append]
    have h1 : db.perms.filter (fun p => p.file_id == startId) = [] := by
      rw [List.filter_eq_nil_iff]
      intro p hp
      simp [hfresh p hp]
    rw [h1]
    simp [creatorPermission]
  · rw [hs]
  · rw [hf]
  · rw [hf]
  · rw [hf]

/-- C1 witness: the amended statement evaluated at a concrete upload. -/
theorem C1_witness :
    (upload_file u0 1 "" "internal" "" 0 true
        (fun _ => { metaOk := true, permOk := true }) 5 db0 [fTxtA]).1.perms.filter
          (fun p => p.file_id == 5) = [creatorPermission 5 u0.uid] ∧
    (upload_file u0 1 "" "internal" "" 0 true
        (fun _ => { metaOk := true, permOk := true }) 5 db0 [fTxtA]).2 =
      UploadResponse.ok [{ fid := 5, name := fTxtA.filename, size := fTxtA.content.length,
                           ftype := storedExt fTxtA.filename }] := by
  have h := C1_creator_permission u0 1 "" "internal" "" 0 true 5 db0 fTxtA
    (by decide) (by decide) (by decide)
  exact ⟨h.1.1, h.1.2⟩

/-! ### C2: batch behaviour on a mid-batch failure -/

/-- C2 counterexample: in the batch `[a.txt, b.exe, c.txt]` the disallowed
second file aborts the whole request: the response is a bare 400 error
message carrying no list of committed records, and the valid third file is
never processed — only `a.txt` was committed.  This contradicts the claim
that the response reports the committed records and that each file is
processed independently. -/
theorem C2_counterexample :
    (upload_file u0 1 "docs" "internal" "" 0 true
        (fun _ => { metaOk := true, permOk := true }) 0 db0 [fTxtA, fExe, fTxtC]).2 =
      UploadResponse.clientError "File type not allowed: b.exe" ∧
    (upload_file u0 1 "docs" "internal" "" 0 true
        (fun _ => { metaOk := true, permOk := true }) 0 db0 [fTxtA, fExe, fTxtC]).1.files.map
          (fun m => m.name) = ["a.txt"] := by
  decide

/-- C2 (amended): files committed before a failing file remain committed —
there is no rollback across the batch — but the first disallowed file
aborts the batch: the files after it are not processed and the 400
response carries only the failing file's error message, not the list of
records committed so far. -/
theorem C2_batch_abort (u : UserRow) (orgId : Nat) (folder classification category : String)
    (now : Nat) (auditOk : Bool) (oracle : Nat → CommitOracle) :
    ∀ (fs : List IncomingFile) (db : DB) (nid : Nat) (acc : List FileSummary)
      (db' : DB) (acc' : List FileSummary),
      uploadLoop u orgId folder classification category now auditOk oracle db nid fs acc =
        (db', UploadResponse.ok acc') →
      ∀ (bad : IncomingFile) (rest : List IncomingFile),
        bad.filename ≠ "" → allowed_file bad.filename = false →
        uploadLoop u orgId folder classification category now auditOk oracle db nid
            (fs ++ bad :: rest) acc =
          (db', UploadResponse.clientError ("File type not allowed: " ++ bad.filename)) := by
  intro fs
  induction fs with
  | nil =>
    intro db nid acc db' acc' h bad rest hb1 hb2
    simp only [uploadLoop] at h
    injection h with h1 h2
    subst h1
    simp only [List.nil_append, uploadLoop,
      processFile_notAllowed u orgId folder classification category nid now (oracle nid)
        auditOk db bad hb1 hb2]
  | cons g gs ih =>
    intro db nid acc db' acc' h bad rest hb1 hb2
    simp only [uploadLoop] at h
    simp only [List.cons_append, uploadLoop]
    cases hp : processFile u orgId folder classification category nid now (oracle nid)
        auditOk db g with
    | mk db1 r =>
      rw [hp] at h
      cases r with
      | skipped => exact ih db1 nid acc db' acc' h bad rest hb1 hb2
      | notAllowedAbort msg =>
        change (db1, UploadResponse.clientError msg) = (db', UploadResponse.ok acc') at h
        injection h with h1 h2
        exact absurd h2 (by simp)
      | dbFailure =>
        change (db1, UploadResponse.serverError) = (db', UploadResponse.ok acc') at h
        injection h with h1 h2
        exact absurd h2 (by simp)
      | committed s => exact ih db1 (nid + 1) (acc ++ [s]) db' acc' h bad rest hb1 hb2

/-- C2 witness: the amended statement at a concrete batch — the committed
prefix `[a.txt]` stays, and the batch aborts at `b.exe` with a bare 400. -/
theorem C2_witness :
    uploadLoop u0 1 "docs" "internal" "" 0 true
        (fun _ => { metaOk := true, permOk := true }) db0 0 ([fTxtA] ++ fExe :: [fTxtC]) [] =
      (dbAfterA, UploadResponse.clientError ("File type not allowed: " ++ fExe.filename)) := by
  exact C2_batch_abort u0 1 "docs" "internal" "" 0 true
    (fun _ => { metaOk := true, permOk := true }) [fTxtA] db0 0 []
    dbAfterA [{ fid := 0, name := fTxtA.filename, size := fTxtA.content.length,
                ftype := storedExt fTxtA.filename }] (by decide) fExe [fTxtC]
    (by decide) (by decide)

/-! ### C8: validation of empty and disallowed filenames -/

/-- C8 counterexample: a batch consisting of one file with an empty
filename is silently skipped — the response is a 200 success with zero
files and no error of any kind, contradicting the claim that such a file
is rejected with an `UnsupportedTypeError`. -/
theorem C8_counterexample :
    upload_file u0 1 "" "internal" "" 0 true
        (fun _ => { metaOk := true, permOk := true }) 0 db0 [fEmptyName] =
      (db0, UploadResponse.ok []) := by
  decide

/-- C8 (amended): a file with an empty filename is silently skipped
without any error; a file with a disallowed extension is rejected with a
400 error before any I/O; in both cases the state is untouched for that
file — no artifact is written, no metadata row is created and no upload
audit entry is emitted. -/
theorem C8_validation (u : UserRow) (orgId : Nat) (folder classification category : String)
    (fid now : Nat) (o : CommitOracle) (auditOk : Bool) (db : DB) (f : IncomingFile) :
    (f.filename = "" →
      processFile u orgId folder classification category fid now o auditOk db f =
        (db, PerFile.skipped)) ∧
    (f.filename ≠ "" → allowed_file f.filename = false →
      processFile u orgId folder classification category fid now o auditOk db f =
        (db, PerFile.notAllowedAbort ("File type not allowed: " ++ f.filename))) ∧
    (∀ (oracle : Nat → CommitOracle) (nid : Nat) (rest : List IncomingFile)
        (acc : List FileSummary),
      f.filename = "" →
      uploadLoop u orgId folder classification category now auditOk oracle db nid
          (f :: rest) acc =
        uploadLoop u orgId folder classification category now auditOk oracle db nid rest acc) ∧
    (∀ (oracle : Nat → CommitOracle) (nid : Nat) (rest : List IncomingFile)
        (acc : List FileSummary),
      f.filename ≠ "" → allowed_file f.filename = false →
      uploadLoop u orgId folder classification category now auditOk oracle db nid
          (f :: rest) acc =
        (db, UploadResponse.clientError ("File type not allowed: " ++ f.filename))) := by
  refine ⟨fun h => processFile_empty u orgId folder classification category fid now o
      auditOk db f h,
    fun h1 h2 => processFile_notAllowed u orgId folder classification category fid now o
      auditOk db f h1 h2, ?_, ?_⟩
  · intro oracle nid rest acc h
    rw [uploadLoop, processFile_empty u orgId folder classification category nid now
      (oracle nid) auditOk db f h]
  · intro oracle nid rest acc h1 h2
    rw [uploadLoop, processFile_notAllowed u orgId folder classification category nid now
      (oracle nid) auditOk db f h1 h2]

/-- C8 witness: the validation outcomes at concrete files. -/
theorem C8_witness :
    processFile u0 1 "" "internal" "" 0 0 { metaOk := true, permOk := true } true db0
        fEmptyName = (db0, PerFile.skipped) ∧
    processFile u0 1 "" "internal" "" 0 0 { metaOk := true, permOk := true } true db0 fExe =
      (db0, PerFile.notAllowedAbort ("File type not allowed: " ++ fExe.filename)) ∧
    uploadLoop u0 1 "" "internal" "" 0 true (fun _ => { metaOk := true, permOk := true })
        db0 0 [fExe] [] =
      (db0, UploadResponse.clientError ("File type not allowed: " ++ fExe.filename)) := by
  have h := fun f => C8_validation u0 1 "" "internal" "" 0 0
    { metaOk := true, permOk := true } true db0 f
  exact ⟨(h fEmptyName).1 rfl, (h fExe).2.1 (by decide) (by decide),
    (h fExe).2.2.2 (fun _ => { metaOk := true, permOk := true }) 0 [] [] (by decide)
      (by decide)⟩

end EFMS
